import Mathlib

/-!
# Hand-gesture navigation: the pinch / click / scroll state machine

A shallow embedding of `src/HandNavigation-React-Js.js`: the refs the component keeps
(`pinchStartRef`, `pinchActiveRef`, `lastPinchTimeRef`, `isScrollingRef`,
`scrollAmountRef`, and the globals `window.lastCursorX` / `window.lastCursorY`), the
`hands.onResults` callback, the `scrollLoop` tick and the effect's `cleanup`.

JavaScript numbers are taken in exact arithmetic over `ℚ` (every finite double is a
rational).  `null` / `undefined` are `none`.  Each handler returns the new state together
with the list of actions it performed, in program order.
-/

namespace HandNavigation

/-! ## Constants (lines 50-53) -/

/-- Source line 50: `const PINCH_DISTANCE_THRESHOLD = 0.08`. -/
def PINCH_DISTANCE_THRESHOLD : ℚ := 0.08

/-- Source line 51: `const CLICK_DURATION_THRESHOLD_MS = 300`. -/
def CLICK_DURATION_THRESHOLD_MS : ℚ := 300

/-- Source line 52: `const SCROLL_MULTIPLIER = 2500`. -/
def SCROLL_MULTIPLIER : ℚ := 2500

/-- Source line 53: `const MAX_SCROLL = 2000`. -/
def MAX_SCROLL : ℚ := 2000

/-! ## Data model -/

/-- One hand landmark `{ x, y, z }` as delivered by the tracking model. -/
structure Landmark where
  x : ℚ
  y : ℚ
  z : ℚ
deriving DecidableEq

/-- One detected hand: the 21 landmarks of `results.multiHandLandmarks[i]`. -/
abbrev Hand := Fin 21 → Landmark

/-- The refs of the component that the handlers read and write, with the two globals
`window.lastCursorX` and `window.lastCursorY` (undefined until a hand frame stores them). -/
structure GestureState where
  /-- The ref `pinchStartRef.current`: `null` or the reference wrist Y. -/
  pinchStartRef : Option ℚ
  /-- The ref `pinchActiveRef.current`. -/
  pinchActiveRef : Bool
  /-- The ref `lastPinchTimeRef.current`. -/
  lastPinchTimeRef : ℚ
  /-- The ref `isScrollingRef.current`. -/
  isScrollingRef : Bool
  /-- The ref `scrollAmountRef.current`: the pending scroll delta. -/
  scrollAmountRef : ℚ
  /-- The global `window.lastCursorX`. -/
  lastCursorX : Option ℚ
  /-- The global `window.lastCursorY`. -/
  lastCursorY : Option ℚ
deriving DecidableEq

/-- The refs as `useRef` initialises them (lines 39-44); the cursor globals are not yet set. -/
def initialState : GestureState :=
  { pinchStartRef := none, pinchActiveRef := false, lastPinchTimeRef := 0, isScrollingRef := false,
    scrollAmountRef := 0, lastCursorX := none, lastCursorY := none }

/-- What one invocation of `hands.onResults` reads from its argument and its environment. -/
structure Frame where
  /-- Whether `canvasRef.current`, `videoRef.current` and `cursorRef.current` are all set
  (the guard of line 142). -/
  refsMounted : Bool
  /-- The value of `performance.now()` (line 146). -/
  currentTime : ℚ
  /-- The value of `window.innerWidth` (line 171). -/
  viewportWidth : ℚ
  /-- The value of `window.innerHeight` (line 172). -/
  viewportHeight : ℚ
  /-- The field `results.multiHandLandmarks`: undefined, or the list of detected hands. -/
  multiHandLandmarks : Option (List Hand)

/-- The actions a handler performs that the properties observe. -/
inductive Event where
  /-- A call `simulateClick(x, y)` (lines 158 and 214). -/
  | simulateClick (x y : Option ℚ)
  /-- An execution of `scrollAmountRef.current += amount` (line 206). -/
  | deposit (amount : ℚ)
  /-- A call `window.scrollBy({ top, behavior: "auto" })` (line 79). -/
  | scrollBy (top : ℚ)
deriving DecidableEq

/-! ## Geometry and the pinch test (lines 168, 186-192) -/

/-- Line 168: `l => ({ x: 1 - l.x, y: l.y, z: l.z })`. -/
def flipLandmark (l : Landmark) : Landmark :=
  { x := 1 - l.x, y := l.y, z := l.z }

/-- Line 168: `originalLandmarks.map(...)`. -/
def flippedLandmarks (originalLandmarks : Hand) : Hand :=
  fun i => flipLandmark (originalLandmarks i)

/-- Lines 188-190, the radicand of `distance`: `dx * dx + dy * dy`. -/
def distanceSq (thumbTip indexTip : Landmark) : ℚ :=
  let dx := thumbTip.x - indexTip.x
  let dy := thumbTip.y - indexTip.y
  dx * dx + dy * dy

/-- Line 192: `distance < PINCH_DISTANCE_THRESHOLD` with `distance = Math.sqrt(dx*dx + dy*dy)`.
The square root of a rational is not a rational, so the comparison is evaluated on the
squares (the threshold is positive); the section on the pinch test relates it to the real
square root. -/
def isPinch (thumbTip indexTip : Landmark) : Bool :=
  decide (distanceSq thumbTip indexTip < PINCH_DISTANCE_THRESHOLD * PINCH_DISTANCE_THRESHOLD)

/-- The pinch test of a frame, on the mirrored landmarks 4 (thumb tip) and 8 (index tip). -/
def pinchDetected (originalLandmarks : Hand) : Bool :=
  isPinch (flippedLandmarks originalLandmarks 4) (flippedLandmarks originalLandmarks 8)

/-- Arithmetic on `pinchStartRef.current`: in a subtraction `null` converts to `0`. -/
def toNumber (v : Option ℚ) : ℚ := v.getD 0

/-- Line 205: `Math.max(Math.min(scrollAmount, MAX_SCROLL), -MAX_SCROLL)`. -/
def clampScroll (scrollAmount : ℚ) : ℚ :=
  max (min scrollAmount MAX_SCROLL) (-MAX_SCROLL)

/-! ## The handlers -/

/-- Lines 77-83, `scrollLoop`: drain the pending delta into `window.scrollBy`. -/
def scrollLoop (s : GestureState) : GestureState × List Event :=
  if s.scrollAmountRef ≠ 0 then
    ({ s with scrollAmountRef := 0 }, [Event.scrollBy s.scrollAmountRef])
  else
    (s, [])

/-- Lines 109-123, `cleanup`, on the gesture refs (lines 120-122). -/
def cleanup (s : GestureState) : GestureState × List Event :=
  ({ s with pinchActiveRef := false, isScrollingRef := false, pinchStartRef := none }, [])

/-- Lines 156-165: the branch of `onResults` for a result without a hand. -/
def onNoHand (s : GestureState) (currentTime : ℚ) : GestureState × List Event :=
  let clicks :=
    if s.pinchActiveRef = true ∧ s.isScrollingRef = false ∧
        currentTime - s.lastPinchTimeRef < CLICK_DURATION_THRESHOLD_MS then
      [Event.simulateClick s.lastCursorX s.lastCursorY]
    else []
  ({ s with pinchActiveRef := false, isScrollingRef := false, pinchStartRef := none }, clicks)

/-- Lines 167-224: the branch of `onResults` for a result with a hand. -/
def onHand (s : GestureState) (currentTime viewportWidth viewportHeight : ℚ)
    (originalLandmarks : Hand) : GestureState × List Event :=
  let flipped := flippedLandmarks originalLandmarks
  let indexTip := flipped 8
  let cursorX := indexTip.x * viewportWidth
  let cursorY := indexTip.y * viewportHeight
  let s1 := { s with lastCursorX := some cursorX, lastCursorY := some cursorY }
  let wrist := flipped 0
  if pinchDetected originalLandmarks = true then
    if s1.pinchActiveRef = false then
      ({ s1 with pinchActiveRef := true, lastPinchTimeRef := currentTime,
                 pinchStartRef := some wrist.y, isScrollingRef := false }, [])
    else
      let scrollDelta := |toNumber s1.pinchStartRef - wrist.y| * viewportHeight
      if scrollDelta > 20 ∨ s1.isScrollingRef = true then
        let scrollAmount := clampScroll ((toNumber s1.pinchStartRef - wrist.y) * SCROLL_MULTIPLIER)
        ({ s1 with isScrollingRef := true, scrollAmountRef := s1.scrollAmountRef + scrollAmount,
                   pinchStartRef := some wrist.y }, [Event.deposit scrollAmount])
      else
        (s1, [])
  else
    if s1.pinchActiveRef = true then
      let pinchDuration := currentTime - s1.lastPinchTimeRef
      let clicks :=
        if s1.isScrollingRef = false ∧ pinchDuration < CLICK_DURATION_THRESHOLD_MS then
          [Event.simulateClick (some cursorX) (some cursorY)]
        else []
      ({ s1 with pinchActiveRef := false, isScrollingRef := false, pinchStartRef := none,
                 scrollAmountRef := 0 }, clicks)
    else
      (s1, [])

/-- Lines 141-225: the callback given to `hands.onResults`. -/
def onResults (s : GestureState) (f : Frame) : GestureState × List Event :=
  if f.refsMounted = false then (s, [])
  else
    match f.multiHandLandmarks with
    | none => onNoHand s f.currentTime
    | some [] => onNoHand s f.currentTime
    | some (originalLandmarks :: _) =>
      onHand s f.currentTime f.viewportWidth f.viewportHeight originalLandmarks

/-! ## Runs -/

/-- The three things that happen to the gesture refs while the component lives. -/
inductive Action where
  /-- The tracking model delivers a result to `onResults`. -/
  | frame (f : Frame)
  /-- The animation frame fires `scrollLoop`. -/
  | tick
  /-- The effect's `cleanup` runs (deactivation or unmount). -/
  | deactivate

/-- One action on the state. -/
def step (s : GestureState) : Action → GestureState × List Event
  | Action.frame f => onResults s f
  | Action.tick => scrollLoop s
  | Action.deactivate => cleanup s

/-- A sequence of actions, with the events of all of them in order. -/
def run (s : GestureState) : List Action → GestureState × List Event
  | [] => (s, [])
  | a :: rest =>
    let r := step s a
    let r2 := run r.1 rest
    (r2.1, r.2 ++ r2.2)

/-- The arguments of the `simulateClick` calls among the events. -/
def clicksOf : List Event → List (Option ℚ × Option ℚ)
  | [] => []
  | Event.simulateClick x y :: rest => (x, y) :: clicksOf rest
  | _ :: rest => clicksOf rest

/-- The amounts added to `scrollAmountRef.current` among the events. -/
def depositsOf : List Event → List ℚ
  | [] => []
  | Event.deposit a :: rest => a :: depositsOf rest
  | _ :: rest => depositsOf rest

/-- The offsets passed to `window.scrollBy` among the events. -/
def scrollsOf : List Event → List ℚ
  | [] => []
  | Event.scrollBy a :: rest => a :: scrollsOf rest
  | _ :: rest => scrollsOf rest

/-! ## Frames used in the statements -/

/-- A frame that passes the guard of line 142 and carries `hand` as its first hand. -/
def handFrame (currentTime viewportWidth viewportHeight : ℚ) (hand : Hand) : Frame :=
  { refsMounted := true, currentTime := currentTime, viewportWidth := viewportWidth,
    viewportHeight := viewportHeight, multiHandLandmarks := some [hand] }

/-- A hand given by its wrist, thumb tip and index tip; the other landmarks, which the
handler never reads for the gesture, are at the origin. -/
def mkHand (wrist thumbTip indexTip : Landmark) : Hand :=
  fun i => if i = 0 then wrist else if i = 4 then thumbTip else if i = 8 then indexTip
    else { x := 0, y := 0, z := 0 }

/-- The first hand of a frame, when `results.multiHandLandmarks` has one. -/
def firstHand (f : Frame) : Option Hand :=
  match f.multiHandLandmarks with
  | some (hand :: _) => some hand
  | _ => none

/-- The wrist Y of the frame's hand (`flippedLandmarks[0].y`), `0` without a hand. -/
def wristY (f : Frame) : ℚ :=
  match firstHand f with
  | some hand => (flippedLandmarks hand 0).y
  | none => 0

/-- A frame that passes the guard of line 142 and whose hand passes the pinch test. -/
def isPinchFrame (f : Frame) : Bool :=
  f.refsMounted && (match firstHand f with
    | some hand => pinchDetected hand
    | none => false)

/-- A frame that passes the guard of line 142 and whose hand fails the pinch test. -/
def isOpenHandFrame (f : Frame) : Bool :=
  f.refsMounted && (match firstHand f with
    | some hand => !pinchDetected hand
    | none => false)

/-- A frame that passes the guard of line 142 and has no hand (tracking loss). -/
def isNoHandFrame (f : Frame) : Bool :=
  f.refsMounted && (firstHand f).isNone

/-- The wrist Y of the last frame of a list, `y0` for the empty list. -/
def finalWristY (y0 : ℚ) : List Frame → ℚ
  | [] => y0
  | f :: rest => finalWristY (wristY f) rest

/-- The invariant of the gesture refs: scrolling only during a pinch, and a reference wrist Y
exactly during a pinch. -/
def gestureInvariant (s : GestureState) : Prop :=
  (s.isScrollingRef = true → s.pinchActiveRef = true) ∧
  (s.pinchStartRef ≠ none ↔ s.pinchActiveRef = true)

/-- Whether an action stores a cursor position: a frame that passes the guard and has a
hand (lines 175-176). -/
def storesCursor : Action → Bool
  | Action.frame f => f.refsMounted && (firstHand f).isSome
  | _ => false

/-! ## Example frames -/

/-- A hand with thumb tip and index tip together at the centre and the wrist at height
`wy`: a pinch. -/
def pinchHand (wy : ℚ) : Hand :=
  mkHand { x := 1/2, y := wy, z := 0 } { x := 1/2, y := 1/2, z := 0 }
    { x := 1/2, y := 1/2, z := 0 }

/-- A hand with the thumb tip 0.3 away from the index tip: no pinch. -/
def openHand (wy : ℚ) : Hand :=
  mkHand { x := 1/2, y := wy, z := 0 } { x := 1/5, y := 1/2, z := 0 }
    { x := 1/2, y := 1/2, z := 0 }

/-- A pinch frame at time `t` with wrist Y `wy` in a 1280 x 720 viewport. -/
def pinchAt (t wy : ℚ) : Frame := handFrame t 1280 720 (pinchHand wy)

/-- An open-hand frame at time `t` with wrist Y `wy` in a 1280 x 720 viewport. -/
def openAt (t wy : ℚ) : Frame := handFrame t 1280 720 (openHand wy)

/-- A frame at time `t` in which the tracking model found no hand. -/
def noHandAt (t : ℚ) : Frame :=
  { refsMounted := true, currentTime := t, viewportWidth := 1280, viewportHeight := 720,
    multiHandLandmarks := some [] }

/-- The state after the pinch-onset frame at time 0 with wrist Y 0.50. -/
def pendingPinch : GestureState :=
  (run initialState [Action.frame (pinchAt 0 (1/2))]).1

/-- The state after the onset frame and a second pinch frame at time 16 with wrist Y 0.40:
the pinch is scrolling and 250 is pending. -/
def scrollingPinch : GestureState :=
  (run initialState [Action.frame (pinchAt 0 (1/2)), Action.frame (pinchAt 16 (2/5))]).1

/-! ## Basic facts about the handlers -/

theorem onResults_unmounted (s : GestureState) (f : Frame) (h : f.refsMounted = false) :
    onResults s f = (s, []) := by
  simp [onResults, h]

theorem onResults_noHand (s : GestureState) (f : Frame) (h : isNoHandFrame f = true) :
    onResults s f = onNoHand s f.currentTime := by
  unfold isNoHandFrame firstHand at h
  unfold onResults
  rcases hm : f.multiHandLandmarks with _ | l
  · simp_all
  · cases l <;> simp_all

theorem onResults_hand (s : GestureState) (f : Frame) (hand : Hand)
    (hm : f.refsMounted = true) (hh : firstHand f = some hand) :
    onResults s f = onHand s f.currentTime f.viewportWidth f.viewportHeight hand := by
  unfold firstHand at hh
  unfold onResults
  rcases hl : f.multiHandLandmarks with _ | l
  · simp_all
  · cases l <;> simp_all

theorem onHand_onset (s : GestureState) (t w h : ℚ) (hand : Hand)
    (hpinch : pinchDetected hand = true) (hact : s.pinchActiveRef = false) :
    onHand s t w h hand =
      ({ s with lastCursorX := some ((1 - (hand 8).x) * w), lastCursorY := some ((hand 8).y * h),
                pinchActiveRef := true, lastPinchTimeRef := t, pinchStartRef := some (hand 0).y,
                isScrollingRef := false }, []) := by
  simp [onHand, hpinch, hact, flippedLandmarks, flipLandmark]

theorem onHand_scroll (s : GestureState) (t w h : ℚ) (hand : Hand)
    (hpinch : pinchDetected hand = true) (hact : s.pinchActiveRef = true)
    (hc : s.isScrollingRef = true ∨ |toNumber s.pinchStartRef - (hand 0).y| * h > 20) :
    onHand s t w h hand =
      ({ s with lastCursorX := some ((1 - (hand 8).x) * w), lastCursorY := some ((hand 8).y * h),
                isScrollingRef := true,
                scrollAmountRef := s.scrollAmountRef +
                  clampScroll ((toNumber s.pinchStartRef - (hand 0).y) * SCROLL_MULTIPLIER),
                pinchStartRef := some (hand 0).y },
        [Event.deposit (clampScroll ((toNumber s.pinchStartRef - (hand 0).y) * SCROLL_MULTIPLIER))]) := by
  have hc2 : |toNumber s.pinchStartRef - (hand 0).y| * h > 20 ∨ s.isScrollingRef = true := hc.symm
  simp only [onHand, hpinch, hact, flippedLandmarks, flipLandmark, hc2]
  simp

theorem onHand_deadband (s : GestureState) (t w h : ℚ) (hand : Hand)
    (hpinch : pinchDetected hand = true) (hact : s.pinchActiveRef = true)
    (hs : s.isScrollingRef = false) (hd : |toNumber s.pinchStartRef - (hand 0).y| * h ≤ 20) :
    onHand s t w h hand =
      ({ s with lastCursorX := some ((1 - (hand 8).x) * w),
                lastCursorY := some ((hand 8).y * h) }, []) := by
  have hc2 : ¬ (|toNumber s.pinchStartRef - (hand 0).y| * h > 20 ∨ s.isScrollingRef = true) := by
    simp [hs, hd]
  simp only [onHand, hpinch, hact, flippedLandmarks, flipLandmark, hc2]
  simp

theorem clampScroll_bounds (a : ℚ) : -MAX_SCROLL ≤ clampScroll a ∧ clampScroll a ≤ MAX_SCROLL := by
  unfold clampScroll MAX_SCROLL
  exact ⟨le_max_right _ _, max_le (min_le_right _ _) (by norm_num)⟩

theorem clampScroll_of_nonneg (a : ℚ) (h : 0 ≤ a) : clampScroll a = min a 2000 := by
  unfold clampScroll MAX_SCROLL
  exact max_eq_left (le_trans (by norm_num) (le_min h (by norm_num)))

theorem run_append (s : GestureState) (as bs : List Action) :
    run s (as ++ bs) = ((run (run s as).1 bs).1, (run s as).2 ++ (run (run s as).1 bs).2) := by
  induction as generalizing s with
  | nil => simp [run]
  | cons a rest ih => simp [run, ih, List.append_assoc]

theorem depositsOf_append (xs ys : List Event) :
    depositsOf (xs ++ ys) = depositsOf xs ++ depositsOf ys := by
  induction xs with
  | nil => simp [depositsOf]
  | cons e rest ih => cases e <;> simp [depositsOf, ih]

theorem clicksOf_append (xs ys : List Event) :
    clicksOf (xs ++ ys) = clicksOf xs ++ clicksOf ys := by
  induction xs with
  | nil => simp [clicksOf]
  | cons e rest ih => cases e <;> simp [clicksOf, ih]

theorem isPinchFrame_hand (f : Frame) (h : isPinchFrame f = true) :
    ∃ hand, f.refsMounted = true ∧ firstHand f = some hand ∧ pinchDetected hand = true ∧
      wristY f = (hand 0).y := by
  unfold isPinchFrame at h
  unfold wristY
  rcases hf : firstHand f with _ | hand
  · simp [hf] at h
  · simp only [hf, Bool.and_eq_true] at h
    exact ⟨hand, h.1, rfl, h.2, by simp [flippedLandmarks, flipLandmark]⟩

/-- A pinch frame on a state with an active pinch either deposits one clamped increment and
re-bases the reference, or (inside the deadband, not scrolling) changes only the cursor. -/
theorem pinch_step_cases (s : GestureState) (f : Frame) (hf : isPinchFrame f = true)
    (hact : s.pinchActiveRef = true) :
    ((s.isScrollingRef = true ∨ |toNumber s.pinchStartRef - wristY f| * f.viewportHeight > 20) ∧
      ∃ cx cy, onResults s f =
        ({ s with lastCursorX := cx, lastCursorY := cy, isScrollingRef := true,
                  scrollAmountRef := s.scrollAmountRef +
                    clampScroll ((toNumber s.pinchStartRef - wristY f) * SCROLL_MULTIPLIER),
                  pinchStartRef := some (wristY f) },
          [Event.deposit (clampScroll ((toNumber s.pinchStartRef - wristY f) * SCROLL_MULTIPLIER))])) ∨
    ((s.isScrollingRef = false ∧ |toNumber s.pinchStartRef - wristY f| * f.viewportHeight ≤ 20) ∧
      ∃ cx cy, onResults s f = ({ s with lastCursorX := cx, lastCursorY := cy }, [])) := by
  obtain ⟨hand, hm, hh, hp, hy⟩ := isPinchFrame_hand f hf
  rw [onResults_hand s f hand hm hh, hy]
  by_cases hc : s.isScrollingRef = true ∨ |toNumber s.pinchStartRef - (hand 0).y| * f.viewportHeight > 20
  · left
    exact ⟨hc, _, _, onHand_scroll s _ _ _ hand hp hact hc⟩
  · right
    have h1 : s.isScrollingRef = false := by
      cases hs : s.isScrollingRef
      · rfl
      · exact absurd (Or.inl hs) hc
    have h2 : |toNumber s.pinchStartRef - (hand 0).y| * f.viewportHeight ≤ 20 :=
      not_lt.mp (fun h => hc (Or.inr h))
    exact ⟨⟨h1, h2⟩, _, _, onHand_deadband s _ _ _ hand hp hact h1 h2⟩

theorem finalWristY_cons_ne_nil (a b : ℚ) (fs : List Frame) (h : fs ≠ []) :
    finalWristY a fs = finalWristY b fs := by
  cases fs with
  | nil => exact absurd rfl h
  | cons f rest => rfl

theorem run_frame_cons (s : GestureState) (f : Frame) (rest : List Frame) :
    run s ((f :: rest).map Action.frame) =
      ((run (onResults s f).1 (rest.map Action.frame)).1,
        (onResults s f).2 ++ (run (onResults s f).1 (rest.map Action.frame)).2) := rfl

/-- The fields after a pinch frame on an active pinch, in the two cases of
`pinch_step_cases`. -/
theorem pinch_step_fields (s : GestureState) (f : Frame) (hf : isPinchFrame f = true)
    (hact : s.pinchActiveRef = true) :
    (onResults s f).1.pinchActiveRef = true ∧
    (onResults s f).1.lastPinchTimeRef = s.lastPinchTimeRef ∧
    (((s.isScrollingRef = true ∨ |toNumber s.pinchStartRef - wristY f| * f.viewportHeight > 20) ∧
        (onResults s f).1.isScrollingRef = true ∧
        (onResults s f).1.scrollAmountRef = s.scrollAmountRef +
          clampScroll ((toNumber s.pinchStartRef - wristY f) * SCROLL_MULTIPLIER) ∧
        (onResults s f).1.pinchStartRef = some (wristY f) ∧
        (onResults s f).2 =
          [Event.deposit (clampScroll ((toNumber s.pinchStartRef - wristY f) * SCROLL_MULTIPLIER))]) ∨
      ((s.isScrollingRef = false ∧ |toNumber s.pinchStartRef - wristY f| * f.viewportHeight ≤ 20) ∧
        (onResults s f).1.isScrollingRef = false ∧
        (onResults s f).1.scrollAmountRef = s.scrollAmountRef ∧
        (onResults s f).1.pinchStartRef = s.pinchStartRef ∧
        (onResults s f).2 = [])) := by
  rcases pinch_step_cases s f hf hact with ⟨hc, cx, cy, heq⟩ | ⟨⟨hs, hd⟩, cx, cy, heq⟩
  · rw [heq]
    exact ⟨hact, rfl, Or.inl ⟨hc, rfl, rfl, rfl, rfl⟩⟩
  · rw [heq]
    exact ⟨hact, rfl, Or.inr ⟨⟨hs, hd⟩, hs, rfl, rfl, rfl⟩⟩

/-- What any run of pinch frames on an active pinch does: the pinch stays active, only
deposits happen, each within the clamp, and the pending delta grows by their sum. -/
theorem pinch_run_basic (fs : List Frame) :
    ∀ s : GestureState, s.pinchActiveRef = true → (∀ f ∈ fs, isPinchFrame f = true) →
      (run s (fs.map Action.frame)).1.pinchActiveRef = true ∧
      (run s (fs.map Action.frame)).1.lastPinchTimeRef = s.lastPinchTimeRef ∧
      (run s (fs.map Action.frame)).2 =
        (depositsOf (run s (fs.map Action.frame)).2).map Event.deposit ∧
      (run s (fs.map Action.frame)).1.scrollAmountRef =
        s.scrollAmountRef + (depositsOf (run s (fs.map Action.frame)).2).sum ∧
      (s.isScrollingRef = true → (run s (fs.map Action.frame)).1.isScrollingRef = true) ∧
      (∀ a ∈ depositsOf (run s (fs.map Action.frame)).2, -MAX_SCROLL ≤ a ∧ a ≤ MAX_SCROLL) ∧
      (s.isScrollingRef = true ∨ (run s (fs.map Action.frame)).1.isScrollingRef = true →
        toNumber (run s (fs.map Action.frame)).1.pinchStartRef
          = finalWristY (toNumber s.pinchStartRef) fs) := by
  induction fs with
  | nil =>
    intro s hact _
    simp [run, depositsOf, finalWristY, hact]
  | cons f rest ih =>
    intro s hact hall
    have hf : isPinchFrame f = true := hall f (List.mem_cons_self _ _)
    have hrest : ∀ g ∈ rest, isPinchFrame g = true :=
      fun g hg => hall g (List.mem_cons_of_mem _ hg)
    obtain ⟨h1, h2, hcases⟩ := pinch_step_fields s f hf hact
    obtain ⟨i1, i2, i3, i4, i5, i6, i7⟩ := ih (onResults s f).1 h1 hrest
    rw [run_frame_cons]
    rcases hcases with ⟨_, k1, k2, k3, k4⟩ | ⟨⟨hs, _⟩, k1, k2, k3, k4⟩
    · simp only [k4, List.singleton_append, depositsOf, List.map_cons, List.sum_cons,
        List.mem_cons, forall_eq_or_imp, finalWristY]
      refine ⟨i1, i2.trans h2, by rw [← i3], by rw [i4, k2, add_assoc], fun _ => i5 k1,
        ⟨clampScroll_bounds _, i6⟩, fun _ => ?_⟩
      rw [i7 (Or.inl k1), k3]
      rfl
    · simp only [k4, List.nil_append, finalWristY]
      refine ⟨i1, i2.trans h2, i3, by rw [i4, k2], fun h => absurd h (by simp [hs]), i6,
        fun h => ?_⟩
      have hfin : (run (onResults s f).1 (rest.map Action.frame)).1.isScrollingRef = true := by
        rcases h with h | h
        · exact absurd h (by simp [hs])
        · exact h
      have hne : rest ≠ [] := by
        rintro rfl
        simp [run, k1] at hfin
      rw [i7 (Or.inr hfin), k3]
      exact finalWristY_cons_ne_nil _ _ rest hne

/-- Pinch frames that stay inside the deadband of a pinch that is not scrolling leave the
gesture refs as they are and perform no action. -/
theorem deadband_run (fs : List Frame) :
    ∀ s : GestureState, s.pinchActiveRef = true → s.isScrollingRef = false →
      (∀ f ∈ fs, isPinchFrame f = true ∧
        |toNumber s.pinchStartRef - wristY f| * f.viewportHeight ≤ 20) →
      (run s (fs.map Action.frame)).2 = [] ∧
      (run s (fs.map Action.frame)).1.pinchActiveRef = true ∧
      (run s (fs.map Action.frame)).1.isScrollingRef = false ∧
      (run s (fs.map Action.frame)).1.pinchStartRef = s.pinchStartRef ∧
      (run s (fs.map Action.frame)).1.lastPinchTimeRef = s.lastPinchTimeRef ∧
      (run s (fs.map Action.frame)).1.scrollAmountRef = s.scrollAmountRef := by
  induction fs with
  | nil =>
    intro s hact hs _
    simp [run, hact, hs]
  | cons f rest ih =>
    intro s hact hs hall
    obtain ⟨hf, hd⟩ := hall f (List.mem_cons_self _ _)
    obtain ⟨h1, h2, hcases⟩ := pinch_step_fields s f hf hact
    rcases hcases with ⟨hc, _⟩ | ⟨_, k1, k2, k3, k4⟩
    · rcases hc with hc | hc
      · rw [hs] at hc
        exact absurd hc (by simp)
      · exact absurd hd (not_le.mpr hc)
    · have hrest : ∀ g ∈ rest, isPinchFrame g = true ∧
          |toNumber (onResults s f).1.pinchStartRef - wristY g| * g.viewportHeight ≤ 20 := by
        intro g hg
        rw [k3]
        exact hall g (List.mem_cons_of_mem _ hg)
      obtain ⟨i1, i2, i3, i4, i5, i6⟩ := ih (onResults s f).1 h1 k1 hrest
      rw [run_frame_cons]
      simp only [k4, List.nil_append]
      exact ⟨i1, i2, i3, i4.trans k3, i5.trans h2, i6.trans k2⟩

/-- When the wrist only moves upward (wrist Y never increases), every deposit is
non-negative, the deposits never add up to more than the unclamped displacement, and they
add up to exactly that unless some increment was clamped (and then to at least the cap). -/
theorem upward_run (fs : List Frame) :
    ∀ s : GestureState, s.pinchActiveRef = true → (∀ f ∈ fs, isPinchFrame f = true) →
      List.Pairwise (fun a b : ℚ => a ≥ b) (toNumber s.pinchStartRef :: fs.map wristY) →
      (∀ a ∈ depositsOf (run s (fs.map Action.frame)).2, 0 ≤ a) ∧
      0 ≤ (depositsOf (run s (fs.map Action.frame)).2).sum ∧
      (depositsOf (run s (fs.map Action.frame)).2).sum +
          toNumber (run s (fs.map Action.frame)).1.pinchStartRef * 2500
        ≤ toNumber s.pinchStartRef * 2500 ∧
      ((depositsOf (run s (fs.map Action.frame)).2).sum +
          toNumber (run s (fs.map Action.frame)).1.pinchStartRef * 2500
        = toNumber s.pinchStartRef * 2500 ∨
        2000 ≤ (depositsOf (run s (fs.map Action.frame)).2).sum) := by
  induction fs with
  | nil =>
    intro s _ _ _
    simp [run, depositsOf]
  | cons f rest ih =>
    intro s hact hall hpw
    have hf : isPinchFrame f = true := hall f (List.mem_cons_self _ _)
    have hrest : ∀ g ∈ rest, isPinchFrame g = true :=
      fun g hg => hall g (List.mem_cons_of_mem _ hg)
    rw [List.map_cons, List.pairwise_cons, List.pairwise_cons] at hpw
    obtain ⟨hhead, hy, hpwrest⟩ := hpw
    have hge : wristY f ≤ toNumber s.pinchStartRef := hhead _ (List.mem_cons_self _ _)
    obtain ⟨h1, h2, hcases⟩ := pinch_step_fields s f hf hact
    rcases hcases with ⟨_, k1, k2, k3, k4⟩ | ⟨_, k1, k2, k3, k4⟩
    · have hpw2 : List.Pairwise (fun a b : ℚ => a ≥ b)
          (toNumber (onResults s f).1.pinchStartRef :: rest.map wristY) := by
        rw [k3, List.pairwise_cons]
        exact ⟨hy, hpwrest⟩
      obtain ⟨i1, i2, i3, i4⟩ := ih (onResults s f).1 h1 hrest hpw2
      rw [k3] at i3 i4
      simp only [toNumber, Option.getD_some] at i3 i4
      have hnn : 0 ≤ (toNumber s.pinchStartRef - wristY f) * SCROLL_MULTIPLIER := by
        unfold SCROLL_MULTIPLIER
        nlinarith
      have hcl := clampScroll_of_nonneg _ hnn
      rw [run_frame_cons]
      simp only [k4, List.singleton_append, depositsOf, List.sum_cons, List.mem_cons,
        forall_eq_or_imp, hcl]
      unfold SCROLL_MULTIPLIER at hnn ⊢
      have hmin1 := min_le_left ((toNumber s.pinchStartRef - wristY f) * 2500) 2000
      have hmin0 : 0 ≤ min ((toNumber s.pinchStartRef - wristY f) * 2500) 2000 :=
        le_min hnn (by norm_num)
      simp only [toNumber] at *
      refine ⟨⟨hmin0, i1⟩, by linarith, by linarith, ?_⟩
      by_cases hcap : (s.pinchStartRef.getD 0 - wristY f) * 2500 ≤ 2000
      · rw [min_eq_left hcap]
        rcases i4 with i4 | i4
        · left; linarith
        · right; linarith
      · right
        rw [min_eq_right (le_of_lt (not_le.mp hcap))]
        linarith
    · have hpw2 : List.Pairwise (fun a b : ℚ => a ≥ b)
          (toNumber (onResults s f).1.pinchStartRef :: rest.map wristY) := by
        rw [k3, List.pairwise_cons]
        exact ⟨fun a ha => hhead a (List.mem_cons_of_mem _ ha), hpwrest⟩
      obtain ⟨i1, i2, i3, i4⟩ := ih (onResults s f).1 h1 hrest hpw2
      rw [k3] at i3 i4
      rw [run_frame_cons]
      simp only [k4, List.nil_append]
      exact ⟨i1, i2, i3, i4⟩

/-- The pinch-onset frame: a pinch frame on a state without an active pinch. -/
theorem onset_fields (s : GestureState) (f : Frame) (hf : isPinchFrame f = true)
    (hact : s.pinchActiveRef = false) :
    (onResults s f).1.pinchActiveRef = true ∧
    (onResults s f).1.isScrollingRef = false ∧
    (onResults s f).1.pinchStartRef = some (wristY f) ∧
    (onResults s f).1.lastPinchTimeRef = f.currentTime ∧
    (onResults s f).1.scrollAmountRef = s.scrollAmountRef ∧
    (onResults s f).2 = [] := by
  obtain ⟨hand, hm, hh, hp, hy⟩ := isPinchFrame_hand f hf
  rw [onResults_hand s f hand hm hh, onHand_onset s _ _ _ hand hp hact, hy]
  exact ⟨rfl, rfl, rfl, rfl, rfl, rfl⟩

theorem isOpenHandFrame_hand (f : Frame) (h : isOpenHandFrame f = true) :
    ∃ hand, f.refsMounted = true ∧ firstHand f = some hand ∧ pinchDetected hand = false := by
  unfold isOpenHandFrame at h
  rcases hf : firstHand f with _ | hand
  · simp [hf] at h
  · simp only [hf, Bool.and_eq_true, Bool.not_eq_true'] at h
    exact ⟨hand, h.1, rfl, h.2⟩

/-- The release frame: an open hand on a state with an active pinch. -/
theorem release_fields (s : GestureState) (f : Frame) (hand : Hand)
    (hm : f.refsMounted = true) (hh : firstHand f = some hand)
    (hopen : pinchDetected hand = false) (hact : s.pinchActiveRef = true) :
    (onResults s f).1.pinchActiveRef = false ∧
    (onResults s f).1.isScrollingRef = false ∧
    (onResults s f).1.pinchStartRef = none ∧
    (onResults s f).1.scrollAmountRef = 0 ∧
    (onResults s f).2 =
      (if s.isScrollingRef = false ∧ f.currentTime - s.lastPinchTimeRef < 300 then
        [Event.simulateClick (some ((1 - (hand 8).x) * f.viewportWidth))
          (some ((hand 8).y * f.viewportHeight))]
      else []) := by
  rw [onResults_hand s f hand hm hh]
  simp [onHand, hopen, hact, CLICK_DURATION_THRESHOLD_MS, flippedLandmarks, flipLandmark]

/-! ## Facts about the example frames -/

theorem isPinchFrame_pinchAt (t wy : ℚ) : isPinchFrame (pinchAt t wy) = true := by
  simp [isPinchFrame, pinchAt, handFrame, firstHand, pinchDetected, pinchHand, mkHand, isPinch,
    distanceSq, flippedLandmarks, flipLandmark, PINCH_DISTANCE_THRESHOLD]
  norm_num

theorem wristY_pinchAt (t wy : ℚ) : wristY (pinchAt t wy) = wy := by
  simp [wristY, pinchAt, handFrame, firstHand, pinchHand, mkHand, flippedLandmarks, flipLandmark]

theorem pinchDetected_openHand (wy : ℚ) : pinchDetected (openHand wy) = false := by
  simp [pinchDetected, openHand, mkHand, isPinch, distanceSq, flippedLandmarks, flipLandmark,
    PINCH_DISTANCE_THRESHOLD]
  norm_num

theorem pendingPinch_eq :
    pendingPinch =
      { pinchStartRef := some (1/2), pinchActiveRef := true, lastPinchTimeRef := 0,
        isScrollingRef := false, scrollAmountRef := 0, lastCursorX := some 640,
        lastCursorY := some 360 } := by
  simp [pendingPinch, run, step, onResults, onHand, pinchAt, handFrame, pinchDetected,
    pinchHand, mkHand, isPinch, distanceSq, flippedLandmarks, flipLandmark,
    PINCH_DISTANCE_THRESHOLD, initialState]
  norm_num

theorem scrollingPinch_eq :
    scrollingPinch =
      { pinchStartRef := some (2/5), pinchActiveRef := true, lastPinchTimeRef := 0,
        isScrollingRef := true, scrollAmountRef := 250, lastCursorX := some 640,
        lastCursorY := some 360 } := by
  simp [scrollingPinch, run, step, onResults, onHand, pinchAt, handFrame, pinchDetected,
    pinchHand, mkHand, isPinch, distanceSq, flippedLandmarks, flipLandmark,
    PINCH_DISTANCE_THRESHOLD, initialState, toNumber, clampScroll, SCROLL_MULTIPLIER,
    MAX_SCROLL, abs_eq_max_neg]
  norm_num

/-! ## Cursor bookkeeping and the invariant -/

theorem step_lastCursor (s : GestureState) (a : Action) (h : storesCursor a = false) :
    (step s a).1.lastCursorX = s.lastCursorX ∧ (step s a).1.lastCursorY = s.lastCursorY := by
  cases a with
  | frame f =>
    simp only [storesCursor, Bool.and_eq_false_imp] at h
    simp only [step, onResults]
    by_cases hm : f.refsMounted = false
    · simp [hm]
    · have hm2 : f.refsMounted = true := by simpa using hm
      have hn := h hm2
      simp only [firstHand] at hn
      rcases hl : f.multiHandLandmarks with _ | l
      · simp [hm2, onNoHand]
      · cases l with
        | nil => simp [hm2, onNoHand]
        | cons x xs => simp [hl] at hn
  | tick =>
    simp only [step, scrollLoop]
    split_ifs <;> simp
  | deactivate => simp [step, cleanup]

theorem run_lastCursor (acts : List Action) :
    ∀ s : GestureState, (∀ a ∈ acts, storesCursor a = false) →
      (run s acts).1.lastCursorX = s.lastCursorX ∧
      (run s acts).1.lastCursorY = s.lastCursorY := by
  induction acts with
  | nil => intro s _; simp [run]
  | cons a rest ih =>
    intro s h
    have h1 := step_lastCursor s a (h a (List.mem_cons_self _ _))
    have h2 := ih (step s a).1 (fun b hb => h b (List.mem_cons_of_mem _ hb))
    simp only [run]
    exact ⟨h2.1.trans h1.1, h2.2.trans h1.2⟩

theorem onHand_invariant (s : GestureState) (t w h : ℚ) (hand : Hand)
    (hinv : gestureInvariant s) : gestureInvariant (onHand s t w h hand).1 := by
  unfold gestureInvariant at hinv ⊢
  unfold onHand
  simp only
  split_ifs <;> simp_all

theorem step_invariant (s : GestureState) (a : Action) (hinv : gestureInvariant s) :
    gestureInvariant (step s a).1 := by
  cases a with
  | frame f =>
    simp only [step, onResults]
    split_ifs
    · exact hinv
    · rcases hl : f.multiHandLandmarks with _ | l
      · simp [onNoHand, gestureInvariant]
      · cases l with
        | nil => simp [onNoHand, gestureInvariant]
        | cons x xs => exact onHand_invariant s _ _ _ x hinv
  | tick =>
    unfold gestureInvariant at hinv ⊢
    simp only [step, scrollLoop]
    split_ifs <;> simp_all
  | deactivate => simp [step, cleanup, gestureInvariant]

theorem run_invariant (acts : List Action) :
    ∀ s : GestureState, gestureInvariant s → gestureInvariant (run s acts).1 := by
  induction acts with
  | nil => intro s h; exact h
  | cons a rest ih =>
    intro s h
    exact ih _ (step_invariant s a h)

/-! ## The pinch test -/

/-- C9: the pinch test of the frame handler holds exactly when the planar Euclidean distance
between thumb tip and index tip is strictly below 0.08 (so a distance equal to 0.08 is not
a pinch); equivalently when `dx^2 + dy^2 < 0.08^2`; the `z` coordinates play no part; and the
test gives the same answer on the mirrored landmarks (which the handler uses) and on the
original ones. -/
theorem pinch_test_iff_distance (hand : Hand) (thumbTip indexTip : Landmark) (z1 z2 : ℚ) :
    (isPinch thumbTip indexTip = true ↔
      Real.sqrt ((((thumbTip.x - indexTip.x) ^ 2 + (thumbTip.y - indexTip.y) ^ 2 : ℚ)) : ℝ)
        < (0.08 : ℝ)) ∧
    (Real.sqrt ((((thumbTip.x - indexTip.x) ^ 2 + (thumbTip.y - indexTip.y) ^ 2 : ℚ)) : ℝ)
        = (0.08 : ℝ) → isPinch thumbTip indexTip = false) ∧
    (isPinch thumbTip indexTip = true ↔
      (thumbTip.x - indexTip.x) ^ 2 + (thumbTip.y - indexTip.y) ^ 2 < (0.08 : ℚ) ^ 2) ∧
    isPinch { thumbTip with z := z1 } { indexTip with z := z2 } = isPinch thumbTip indexTip ∧
    isPinch (flipLandmark thumbTip) (flipLandmark indexTip) = isPinch thumbTip indexTip ∧
    pinchDetected hand = isPinch (hand 4) (hand 8) := by
  have hsq : (isPinch thumbTip indexTip = true ↔
      (thumbTip.x - indexTip.x) ^ 2 + (thumbTip.y - indexTip.y) ^ 2 < (0.08 : ℚ) ^ 2) := by
    simp only [isPinch, distanceSq, PINCH_DISTANCE_THRESHOLD, decide_eq_true_eq]
    constructor <;> intro h <;> nlinarith [h]
  have hreal : (isPinch thumbTip indexTip = true ↔
      Real.sqrt ((((thumbTip.x - indexTip.x) ^ 2 + (thumbTip.y - indexTip.y) ^ 2 : ℚ)) : ℝ)
        < (0.08 : ℝ)) := by
    rw [hsq, Real.sqrt_lt' (by norm_num)]
    have hc : ((0.08 : ℝ)) ^ 2 = (((0.08 : ℚ) ^ 2 : ℚ) : ℝ) := by norm_num
    rw [hc]
    exact Rat.cast_lt.symm
  have hflip : ∀ a b : Landmark, isPinch (flipLandmark a) (flipLandmark b) = isPinch a b := by
    intro a b
    simp only [isPinch, distanceSq, flipLandmark]
    congr 1
    apply propext
    constructor <;> intro h <;> nlinarith [h]
  refine ⟨hreal, ?_, hsq, ?_, hflip _ _, ?_⟩
  · intro heq
    cases hp : isPinch thumbTip indexTip
    · rfl
    · have := hreal.mp hp
      rw [heq] at this
      exact absurd this (lt_irrefl _)
  · simp [isPinch, distanceSq]
  · simp only [pinchDetected, flippedLandmarks]
    exact hflip _ _

/-! ## The scroll loop -/

/-- C7: one tick of `scrollLoop` passes the pending delta `p` to `window.scrollBy` exactly
once when `p ≠ 0` and does nothing when `p = 0`; either way the pending delta is `0`
afterwards and the other refs are untouched, so two ticks in a row apply `p` only once. -/
theorem scrollLoop_drains_once (s : GestureState) :
    (scrollLoop s).2 = (if s.scrollAmountRef = 0 then [] else [Event.scrollBy s.scrollAmountRef]) ∧
    (scrollLoop s).1 = { s with scrollAmountRef := 0 } ∧
    (scrollLoop (scrollLoop s).1).2 = [] ∧
    scrollsOf (run s [Action.tick, Action.tick]).2
      = (if s.scrollAmountRef = 0 then [] else [s.scrollAmountRef]) ∧
    (run s [Action.tick, Action.tick]).1.scrollAmountRef = 0 := by
  by_cases h : s.scrollAmountRef = 0
  · have hs : ({ s with scrollAmountRef := 0 } : GestureState) = s := by
      cases s; simp_all
    simp [scrollLoop, run, step, h, hs, scrollsOf]
  · simp [scrollLoop, run, step, h, scrollsOf]

/-! ## Single frames -/

/-- C1: on a release frame (a frame past the guard of line 142 whose hand fails the pinch
test, while `pinchActiveRef` is true) `simulateClick` is called if and only if
`isScrollingRef` is false and `currentTime - lastPinchTimeRef < 300`; the call is then the
only one and its arguments are the index tip of this frame in viewport pixels,
`((1 - x8) * viewportWidth, y8 * viewportHeight)`.  A release while scrolling, or one with
elapsed time `≥ 300`, calls nothing. -/
theorem release_click_iff (s : GestureState) (f : Frame) (hand : Hand)
    (hm : f.refsMounted = true) (hh : firstHand f = some hand)
    (hopen : pinchDetected hand = false) (hact : s.pinchActiveRef = true) :
    ((∃ x y, Event.simulateClick x y ∈ (onResults s f).2) ↔
      (s.isScrollingRef = false ∧ f.currentTime - s.lastPinchTimeRef < 300)) ∧
    (s.isScrollingRef = false ∧ f.currentTime - s.lastPinchTimeRef < 300 →
      (onResults s f).2 = [Event.simulateClick (some ((1 - (hand 8).x) * f.viewportWidth))
        (some ((hand 8).y * f.viewportHeight))]) ∧
    (s.isScrollingRef = true → (onResults s f).2 = []) ∧
    (300 ≤ f.currentTime - s.lastPinchTimeRef → (onResults s f).2 = []) := by
  rw [onResults_hand s f hand hm hh]
  by_cases hc : s.isScrollingRef = false ∧ f.currentTime - s.lastPinchTimeRef < 300
  · obtain ⟨h1, h2⟩ := hc
    simp [onHand, hopen, hact, h1, h2, CLICK_DURATION_THRESHOLD_MS, flippedLandmarks,
      flipLandmark]
  · have hev : (onHand s f.currentTime f.viewportWidth f.viewportHeight hand).2 = [] := by
      simp only [onHand, hopen, hact, CLICK_DURATION_THRESHOLD_MS]
      simp [hc]
    rw [hev]
    refine ⟨by simp [hc], fun h => absurd h hc, fun _ => rfl, fun _ => rfl⟩

/-- C3: on a frame past the guard of line 142 whose hand passes the pinch test while
`pinchActiveRef` is already true, with `ref` the numeric value of `pinchStartRef.current`
and `y` the wrist Y: when `isScrollingRef` is true or `|ref - y| * viewportHeight > 20`,
`isScrollingRef` is true afterwards, the pending delta grows by exactly
`max (min ((ref - y) * 2500) 2000) (-2000)` (one deposit, within `[-2000, 2000]`, positive
when `y < ref`) and `pinchStartRef` becomes `y`; otherwise `pinchActiveRef`,
`isScrollingRef`, `pinchStartRef`, `lastPinchTimeRef` and the pending delta stay as they
are and nothing is deposited.  So a true `isScrollingRef` stays true over any run of such
frames. -/
theorem pinch_continues_frame (s : GestureState) (f : Frame) (hand : Hand)
    (hm : f.refsMounted = true) (hh : firstHand f = some hand)
    (hpinch : pinchDetected hand = true) (hact : s.pinchActiveRef = true) :
    (s.isScrollingRef = true ∨ |toNumber s.pinchStartRef - (hand 0).y| * f.viewportHeight > 20 →
      (onResults s f).1.isScrollingRef = true ∧
      (onResults s f).1.pinchActiveRef = true ∧
      (onResults s f).1.lastPinchTimeRef = s.lastPinchTimeRef ∧
      (onResults s f).1.scrollAmountRef = s.scrollAmountRef +
        max (min ((toNumber s.pinchStartRef - (hand 0).y) * 2500) 2000) (-2000) ∧
      (onResults s f).1.pinchStartRef = some (hand 0).y ∧
      (onResults s f).2 =
        [Event.deposit (max (min ((toNumber s.pinchStartRef - (hand 0).y) * 2500) 2000) (-2000))] ∧
      -MAX_SCROLL ≤ max (min ((toNumber s.pinchStartRef - (hand 0).y) * 2500) 2000) (-2000) ∧
      max (min ((toNumber s.pinchStartRef - (hand 0).y) * 2500) 2000) (-2000) ≤ MAX_SCROLL ∧
      ((hand 0).y < toNumber s.pinchStartRef →
        0 < max (min ((toNumber s.pinchStartRef - (hand 0).y) * 2500) 2000) (-2000))) ∧
    (s.isScrollingRef = false ∧ |toNumber s.pinchStartRef - (hand 0).y| * f.viewportHeight ≤ 20 →
      (onResults s f).1.pinchActiveRef = s.pinchActiveRef ∧
      (onResults s f).1.isScrollingRef = s.isScrollingRef ∧
      (onResults s f).1.pinchStartRef = s.pinchStartRef ∧
      (onResults s f).1.lastPinchTimeRef = s.lastPinchTimeRef ∧
      (onResults s f).1.scrollAmountRef = s.scrollAmountRef ∧
      (onResults s f).2 = []) ∧
    (∀ fs : List Frame, (∀ g ∈ fs, isPinchFrame g = true) → s.isScrollingRef = true →
      (run s (fs.map Action.frame)).1.isScrollingRef = true) := by
  refine ⟨?_, ?_, fun fs hfs hs => (pinch_run_basic fs s hact hfs).2.2.2.2.1 hs⟩ <;>
    rw [onResults_hand s f hand hm hh]
  · intro hc
    rw [onHand_scroll s _ _ _ hand hpinch hact hc]
    have hb := clampScroll_bounds ((toNumber s.pinchStartRef - (hand 0).y) * SCROLL_MULTIPLIER)
    have hcl : clampScroll ((toNumber s.pinchStartRef - (hand 0).y) * SCROLL_MULTIPLIER) =
        max (min ((toNumber s.pinchStartRef - (hand 0).y) * 2500) 2000) (-2000) := rfl
    rw [hcl] at hb ⊢
    refine ⟨rfl, hact, rfl, rfl, rfl, rfl, hb.1, hb.2, ?_⟩
    intro hy
    have h1 : 0 < (toNumber s.pinchStartRef - (hand 0).y) * 2500 := by linarith
    exact lt_max_of_lt_left (lt_min h1 (by norm_num))
  · rintro ⟨h1, h2⟩
    rw [onHand_deadband s _ _ _ hand hpinch hact h1 h2]
    exact ⟨rfl, rfl, rfl, rfl, rfl, rfl⟩

/-- C5: on a tracking-loss frame (a frame past the guard of line 142 without a hand)
`simulateClick` is called if and only if `pinchActiveRef` is true, `isScrollingRef` is false
and `currentTime - lastPinchTimeRef < 300`; it is then called once, with
`window.lastCursorX` and `window.lastCursorY`, which hold the cursor position of the most
recent frame that had a hand.  Tracking loss while scrolling calls nothing.  In every case
nothing is added to the pending delta and `pinchActiveRef = false`,
`isScrollingRef = false`, `pinchStartRef = null` afterwards. -/
theorem tracking_loss_frame (s : GestureState) (f : Frame) (hloss : isNoHandFrame f = true) :
    ((∃ x y, Event.simulateClick x y ∈ (onResults s f).2) ↔
      (s.pinchActiveRef = true ∧ s.isScrollingRef = false ∧
        f.currentTime - s.lastPinchTimeRef < 300)) ∧
    (s.pinchActiveRef = true ∧ s.isScrollingRef = false ∧ f.currentTime - s.lastPinchTimeRef < 300 →
      (onResults s f).2 = [Event.simulateClick s.lastCursorX s.lastCursorY]) ∧
    (s.isScrollingRef = true → (onResults s f).2 = []) ∧
    depositsOf (onResults s f).2 = [] ∧
    (onResults s f).1.scrollAmountRef = s.scrollAmountRef ∧
    (onResults s f).1.pinchActiveRef = false ∧
    (onResults s f).1.isScrollingRef = false ∧
    (onResults s f).1.pinchStartRef = none ∧
    (∀ (s0 : GestureState) (g : Frame) (hand : Hand) (between : List Action),
      g.refsMounted = true → firstHand g = some hand →
      (∀ a ∈ between, storesCursor a = false) →
      s = (run (onResults s0 g).1 between).1 →
      s.lastCursorX = some ((1 - (hand 8).x) * g.viewportWidth) ∧
      s.lastCursorY = some ((hand 8).y * g.viewportHeight)) := by
  rw [onResults_noHand s f hloss]
  have hlast : ∀ (s0 : GestureState) (g : Frame) (hand : Hand) (between : List Action),
      g.refsMounted = true → firstHand g = some hand →
      (∀ a ∈ between, storesCursor a = false) →
      s = (run (onResults s0 g).1 between).1 →
      s.lastCursorX = some ((1 - (hand 8).x) * g.viewportWidth) ∧
      s.lastCursorY = some ((hand 8).y * g.viewportHeight) := by
    intro s0 g hand between hm hh hb hs
    have hc := run_lastCursor between (onResults s0 g).1 hb
    rw [← hs, onResults_hand s0 g hand hm hh] at hc
    have hx : (onHand s0 g.currentTime g.viewportWidth g.viewportHeight hand).1.lastCursorX
        = some ((1 - (hand 8).x) * g.viewportWidth) := by
      unfold onHand
      simp only [flippedLandmarks, flipLandmark]
      split_ifs <;> rfl
    have hy : (onHand s0 g.currentTime g.viewportWidth g.viewportHeight hand).1.lastCursorY
        = some ((hand 8).y * g.viewportHeight) := by
      unfold onHand
      simp only [flippedLandmarks, flipLandmark]
      split_ifs <;> rfl
    exact ⟨hc.1.trans hx, hc.2.trans hy⟩
  by_cases hc : s.pinchActiveRef = true ∧ s.isScrollingRef = false ∧
      f.currentTime - s.lastPinchTimeRef < 300
  · have hev : (onNoHand s f.currentTime).2 = [Event.simulateClick s.lastCursorX s.lastCursorY] := by
      simp only [onNoHand, CLICK_DURATION_THRESHOLD_MS, if_pos hc]
    rw [hev]
    refine ⟨by simp [hc], fun _ => rfl, fun h => ?_, rfl, rfl, rfl, rfl, rfl, hlast⟩
    rw [hc.2.1] at h
    exact absurd h (by simp)
  · have hev : (onNoHand s f.currentTime).2 = [] := by
      simp only [onNoHand, CLICK_DURATION_THRESHOLD_MS, if_neg hc]
    rw [hev]
    exact ⟨by simp [hc], fun h => absurd h hc, fun _ => rfl, rfl, rfl, rfl, rfl, rfl, hlast⟩

/-- C8: in every state reached from the initial refs by any sequence of frames (with a
hand, without one, or dropped by the guard), scroll ticks and cleanups, `isScrollingRef` is
true only if `pinchActiveRef` is, and `pinchStartRef` is non-null exactly when `pinchActiveRef` is
true. -/
theorem reachable_invariant (acts : List Action) :
    ((run initialState acts).1.isScrollingRef = true →
      (run initialState acts).1.pinchActiveRef = true) ∧
    ((run initialState acts).1.pinchStartRef ≠ none ↔
      (run initialState acts).1.pinchActiveRef = true) := by
  have h0 : gestureInvariant initialState := by simp [gestureInvariant, initialState]
  exact run_invariant acts initialState h0

/-! ## Whole pinches -/

/-- C2: from a state without an active pinch and with nothing pending, a pinch-onset frame
at time `t0` with wrist Y `y0`, then any number of pinch frames whose wrist Y stays within
the deadband of `y0` (`|y0 - y| * viewportHeight ≤ 20`), then a release frame at a time `t`
with `t - t0 < 300`, perform exactly one action over the whole sequence: the click of the
release frame.  Nothing is ever deposited and the pending delta is `0` at the end. -/
theorem quick_pinch_clicks_once (s0 : GestureState) (f0 : Frame) (mids : List Frame)
    (fr : Frame) (hand : Hand)
    (hidle : s0.pinchActiveRef = false) (hpend : s0.scrollAmountRef = 0)
    (honset : isPinchFrame f0 = true)
    (hmids : ∀ f ∈ mids, isPinchFrame f = true ∧
      |wristY f0 - wristY f| * f.viewportHeight ≤ 20)
    (hm : fr.refsMounted = true) (hh : firstHand fr = some hand)
    (hopen : pinchDetected hand = false)
    (htime : fr.currentTime - f0.currentTime < 300) :
    (run s0 ((f0 :: (mids ++ [fr])).map Action.frame)).2 =
      [Event.simulateClick (some ((1 - (hand 8).x) * fr.viewportWidth))
        (some ((hand 8).y * fr.viewportHeight))] ∧
    (clicksOf (run s0 ((f0 :: (mids ++ [fr])).map Action.frame)).2).length = 1 ∧
    depositsOf (run s0 ((f0 :: (mids ++ [fr])).map Action.frame)).2 = [] ∧
    (run s0 ((f0 :: mids).map Action.frame)).2 = [] ∧
    (run s0 ((f0 :: mids).map Action.frame)).1.scrollAmountRef = 0 ∧
    (run s0 ((f0 :: (mids ++ [fr])).map Action.frame)).1.scrollAmountRef = 0 := by
  obtain ⟨o1, o2, o3, o4, o5, o6⟩ := onset_fields s0 f0 honset hidle
  have hmids2 : ∀ f ∈ mids, isPinchFrame f = true ∧
      |toNumber (onResults s0 f0).1.pinchStartRef - wristY f| * f.viewportHeight ≤ 20 := by
    intro f hf
    rw [o3]
    exact hmids f hf
  obtain ⟨d1, d2, d3, d4, d5, d6⟩ := deadband_run mids (onResults s0 f0).1 o1 o2 hmids2
  have hmid : run s0 ((f0 :: mids).map Action.frame) =
      ((run (onResults s0 f0).1 (mids.map Action.frame)).1, []) := by
    rw [run_frame_cons, o6, d1]
    rfl
  obtain ⟨r1, r2, r3, r4, r5⟩ := release_fields
    (run (onResults s0 f0).1 (mids.map Action.frame)).1 fr hand hm hh hopen d2
  have hcond : (run (onResults s0 f0).1 (mids.map Action.frame)).1.isScrollingRef = false ∧
      fr.currentTime - (run (onResults s0 f0).1 (mids.map Action.frame)).1.lastPinchTimeRef
        < 300 := by
    rw [d5, o4]
    exact ⟨d3, htime⟩
  rw [if_pos hcond] at r5
  have hall : run s0 ((f0 :: (mids ++ [fr])).map Action.frame) =
      ((onResults (run (onResults s0 f0).1 (mids.map Action.frame)).1 fr).1,
        [Event.simulateClick (some ((1 - (hand 8).x) * fr.viewportWidth))
          (some ((hand 8).y * fr.viewportHeight))]) := by
    rw [run_frame_cons, List.map_append, run_append, o6, d1]
    simp only [List.map_cons, List.map_nil, run, step, r5, List.nil_append, List.append_nil]
  rw [hall, hmid]
  refine ⟨rfl, rfl, rfl, rfl, ?_, r4⟩
  show (run (onResults s0 f0).1 (mids.map Action.frame)).1.scrollAmountRef = 0
  rw [d6, o5, hpend]

/-- C4, as the code has it: for a pinch engaged from a state without an active pinch and
then moved only upward (wrist Y never increasing) until it is scrolling, with `d` the total
upward wrist movement: every deposit lies in `[0, MAX_SCROLL]`; the deposits sum to at most
`d * SCROLL_MULTIPLIER` and to at least `min (d * SCROLL_MULTIPLIER) MAX_SCROLL`; and when
`d * SCROLL_MULTIPLIER ≤ MAX_SCROLL` they sum to exactly
`clampScroll (d * SCROLL_MULTIPLIER) = d * SCROLL_MULTIPLIER`.  The viewport height enters
only through the deadband test, not the amounts. -/
theorem upward_scroll_sum (s0 : GestureState) (f0 : Frame) (fs : List Frame)
    (hidle : s0.pinchActiveRef = false) (honset : isPinchFrame f0 = true)
    (hfs : ∀ f ∈ fs, isPinchFrame f = true)
    (hup : List.Chain (fun a b : ℚ => a ≥ b) (wristY f0) (fs.map wristY))
    (hscroll : (run s0 ((f0 :: fs).map Action.frame)).1.isScrollingRef = true) :
    (∀ a ∈ depositsOf (run s0 ((f0 :: fs).map Action.frame)).2, 0 ≤ a ∧ a ≤ MAX_SCROLL) ∧
    (depositsOf (run s0 ((f0 :: fs).map Action.frame)).2).sum
      ≤ (wristY f0 - finalWristY (wristY f0) fs) * SCROLL_MULTIPLIER ∧
    min ((wristY f0 - finalWristY (wristY f0) fs) * SCROLL_MULTIPLIER) MAX_SCROLL
      ≤ (depositsOf (run s0 ((f0 :: fs).map Action.frame)).2).sum ∧
    ((wristY f0 - finalWristY (wristY f0) fs) * SCROLL_MULTIPLIER ≤ MAX_SCROLL →
      (depositsOf (run s0 ((f0 :: fs).map Action.frame)).2).sum
        = clampScroll ((wristY f0 - finalWristY (wristY f0) fs) * SCROLL_MULTIPLIER) ∧
      (depositsOf (run s0 ((f0 :: fs).map Action.frame)).2).sum
        = (wristY f0 - finalWristY (wristY f0) fs) * SCROLL_MULTIPLIER) ∧
    (run s0 ((f0 :: fs).map Action.frame)).1.scrollAmountRef = s0.scrollAmountRef +
      (depositsOf (run s0 ((f0 :: fs).map Action.frame)).2).sum := by
  obtain ⟨o1, o2, o3, o4, o5, o6⟩ := onset_fields s0 f0 honset hidle
  have hrun : run s0 ((f0 :: fs).map Action.frame) =
      run (onResults s0 f0).1 (fs.map Action.frame) := by
    rw [run_frame_cons, o6]
    rfl
  rw [hrun] at hscroll ⊢
  obtain ⟨b1, b2, b3, b4, b5, b6, b7⟩ := pinch_run_basic fs (onResults s0 f0).1 o1 hfs
  have hpw : List.Pairwise (fun a b : ℚ => a ≥ b)
      (toNumber (onResults s0 f0).1.pinchStartRef :: fs.map wristY) := by
    rw [o3]
    exact List.chain_iff_pairwise.mp hup
  obtain ⟨u1, u2, u3, u4⟩ := upward_run fs (onResults s0 f0).1 o1 hfs hpw
  have hfin := b7 (Or.inr hscroll)
  rw [o3] at hfin u3 u4
  rw [hfin] at u3 u4
  simp only [toNumber, Option.getD_some] at u3 u4
  rw [b4, o5]
  unfold SCROLL_MULTIPLIER MAX_SCROLL
  refine ⟨fun a ha => ⟨u1 a ha, (b6 a ha).2⟩, by linarith, ?_, ?_, rfl⟩
  · rcases u4 with u4 | u4
    · exact le_trans (min_le_left _ _) (by linarith)
    · exact le_trans (min_le_right _ _) u4
  · intro hcap
    have hsum : (depositsOf (run (onResults s0 f0).1 (fs.map Action.frame)).2).sum
        = (wristY f0 - finalWristY (wristY f0) fs) * 2500 := by
      rcases u4 with u4 | u4
      · linarith
      · linarith
    refine ⟨?_, hsum⟩
    rw [hsum, clampScroll_of_nonneg _ (by linarith), min_eq_left hcap]

theorem openHand_cursor (wy t : ℚ) :
    (1 - (openHand wy 8).x) * (openAt t wy).viewportWidth = 640 ∧
    (openHand wy 8).y * (openAt t wy).viewportHeight = 360 := by
  simp [openHand, mkHand, openAt, handFrame]
  norm_num

theorem pinchHand_cursor (wy t : ℚ) :
    (1 - (pinchHand wy 8).x) * (pinchAt t wy).viewportWidth = 640 ∧
    (pinchHand wy 8).y * (pinchAt t wy).viewportHeight = 360 := by
  simp [pinchHand, mkHand, pinchAt, handFrame]
  norm_num

/-- C1 on an example: releasing the pending pinch of the onset frame at time 80 clicks once,
at the index tip `(640, 360)`. -/
theorem release_click_witness :
    pinchDetected (openHand (1/2)) = false ∧ pendingPinch.pinchActiveRef = true ∧
    (onResults pendingPinch (openAt 80 (1/2))).2 = [Event.simulateClick (some 640) (some 360)] := by
  have hact : pendingPinch.pinchActiveRef = true := by rw [pendingPinch_eq]
  have h := (release_click_iff pendingPinch (openAt 80 (1/2)) (openHand (1/2)) rfl rfl
    (pinchDetected_openHand _) hact).2.1
    ⟨by rw [pendingPinch_eq], by rw [pendingPinch_eq]; norm_num [openAt, handFrame]⟩
  rw [(openHand_cursor (1/2) 80).1, (openHand_cursor (1/2) 80).2] at h
  exact ⟨pinchDetected_openHand _, hact, h⟩

/-- C2 on the scenario of the specification: frames at t = 0 (pinch, wrist 0.50), t = 50
(pinch, wrist 0.50) and t = 80 (release) give one click and no deposit. -/
theorem quick_pinch_witness :
    (run initialState ((pinchAt 0 (1/2) :: ([pinchAt 50 (1/2)] ++ [openAt 80 (1/2)])).map
      Action.frame)).2 = [Event.simulateClick (some 640) (some 360)] ∧
    depositsOf (run initialState ((pinchAt 0 (1/2) ::
      ([pinchAt 50 (1/2)] ++ [openAt 80 (1/2)])).map Action.frame)).2 = [] := by
  have h := quick_pinch_clicks_once initialState (pinchAt 0 (1/2)) [pinchAt 50 (1/2)]
    (openAt 80 (1/2)) (openHand (1/2)) rfl rfl (isPinchFrame_pinchAt _ _)
    (by
      intro f hf
      rw [List.mem_singleton] at hf
      subst hf
      refine ⟨isPinchFrame_pinchAt _ _, ?_⟩
      rw [wristY_pinchAt, wristY_pinchAt]
      norm_num [pinchAt, handFrame])
    rfl rfl (pinchDetected_openHand _) (by norm_num [openAt, pinchAt, handFrame])
  have h1 := h.1
  rw [(openHand_cursor (1/2) 80).1, (openHand_cursor (1/2) 80).2] at h1
  exact ⟨h1, h.2.2.1⟩

/-- C3 on an example: the pinch frame at time 16 with wrist Y 0.40 on the pending pinch
(reference 0.50, viewport height 720) enters scrolling and deposits 250. -/
theorem pinch_continues_witness :
    pinchDetected (pinchHand (2/5)) = true ∧ pendingPinch.pinchActiveRef = true ∧
    (onResults pendingPinch (pinchAt 16 (2/5))).1.isScrollingRef = true ∧
    (onResults pendingPinch (pinchAt 16 (2/5))).1.pinchStartRef = some (pinchHand (2/5) 0).y := by
  have hact : pendingPinch.pinchActiveRef = true := by rw [pendingPinch_eq]
  obtain ⟨hand, _, hh, hp, _⟩ := isPinchFrame_hand _ (isPinchFrame_pinchAt 16 (2/5))
  have hhand : hand = pinchHand (2/5) := (Option.some.inj hh).symm
  subst hhand
  have h := (pinch_continues_frame pendingPinch (pinchAt 16 (2/5)) (pinchHand (2/5)) rfl rfl
    hp hact).1
    (Or.inr (by
      rw [pendingPinch_eq]
      simp [toNumber, pinchHand, mkHand, pinchAt, handFrame, abs_eq_max_neg]
      norm_num))
  exact ⟨hp, hact, h.1, h.2.2.2.2.1⟩

/-- C4 fails as stated.  With viewport height 720, onset wrist Y 0.50 and the next frame at
0.40 the only deposit is `0.10 * 2500 = 250`, not `clamp (0.10 * 720 * 2500) = 2000`.  And
an upward movement 0.90, 0.50, 0.00 deposits 1000 and 1250, in total 2250, which is neither
`clamp (0.90 * 720 * 2500)` nor `clamp (0.90 * 2500)`: the clamp bounds each increment, not
the sum. -/
theorem upward_scroll_sum_counterexample :
    (run initialState [Action.frame (pinchAt 0 (1/2)),
      Action.frame (pinchAt 16 (2/5))]).1.isScrollingRef = true ∧
    depositsOf (run initialState [Action.frame (pinchAt 0 (1/2)),
      Action.frame (pinchAt 16 (2/5))]).2 = [250] ∧
    clampScroll ((1/2 - 2/5) * 720 * SCROLL_MULTIPLIER) = 2000 ∧
    (depositsOf (run initialState [Action.frame (pinchAt 0 (1/2)),
      Action.frame (pinchAt 16 (2/5))]).2).sum
        ≠ clampScroll ((1/2 - 2/5) * 720 * SCROLL_MULTIPLIER) ∧
    depositsOf (run initialState [Action.frame (pinchAt 0 (9/10)),
      Action.frame (pinchAt 16 (1/2)), Action.frame (pinchAt 33 0)]).2 = [1000, 1250] ∧
    (depositsOf (run initialState [Action.frame (pinchAt 0 (9/10)),
      Action.frame (pinchAt 16 (1/2)), Action.frame (pinchAt 33 0)]).2).sum
        ≠ clampScroll ((9/10 - 0) * 720 * SCROLL_MULTIPLIER) ∧
    (depositsOf (run initialState [Action.frame (pinchAt 0 (9/10)),
      Action.frame (pinchAt 16 (1/2)), Action.frame (pinchAt 33 0)]).2).sum
        ≠ clampScroll ((9/10 - 0) * SCROLL_MULTIPLIER) := by
  have e1 : run initialState [Action.frame (pinchAt 0 (1/2)),
      Action.frame (pinchAt 16 (2/5))] = (scrollingPinch, [Event.deposit 250]) := by
    rw [scrollingPinch_eq]
    simp [run, step, onResults, onHand, pinchAt, handFrame, pinchDetected,
      pinchHand, mkHand, isPinch, distanceSq, flippedLandmarks, flipLandmark,
      PINCH_DISTANCE_THRESHOLD, initialState, toNumber, clampScroll, SCROLL_MULTIPLIER,
      MAX_SCROLL, abs_eq_max_neg]
    norm_num
  have e2 : (run initialState [Action.frame (pinchAt 0 (9/10)),
      Action.frame (pinchAt 16 (1/2)), Action.frame (pinchAt 33 0)]).2
        = [Event.deposit 1000, Event.deposit 1250] := by
    simp [run, step, onResults, onHand, pinchAt, handFrame, pinchDetected,
      pinchHand, mkHand, isPinch, distanceSq, flippedLandmarks, flipLandmark,
      PINCH_DISTANCE_THRESHOLD, initialState, toNumber, clampScroll, SCROLL_MULTIPLIER,
      MAX_SCROLL, abs_eq_max_neg]
    norm_num
  have c1 : clampScroll ((1/2 - 2/5) * 720 * SCROLL_MULTIPLIER) = 2000 := by
    norm_num [clampScroll, SCROLL_MULTIPLIER, MAX_SCROLL]
  have c2 : clampScroll ((9/10 - 0) * 720 * SCROLL_MULTIPLIER) = 2000 := by
    norm_num [clampScroll, SCROLL_MULTIPLIER, MAX_SCROLL]
  have c3 : clampScroll ((9/10 - 0) * SCROLL_MULTIPLIER) = 2000 := by
    norm_num [clampScroll, SCROLL_MULTIPLIER, MAX_SCROLL]
  rw [e1, e2, c1, c2, c3]
  refine ⟨by rw [scrollingPinch_eq], rfl, rfl, ?_, rfl, ?_, ?_⟩ <;>
    norm_num [depositsOf]

/-- C4 (as the code has it) on the scenario of the specification: onset at wrist Y 0.50, next
frame at 0.40, viewport height 720: the deposits sum to `0.10 * 2500 = 250`. -/
theorem upward_scroll_sum_witness :
    (run initialState ((pinchAt 0 (1/2) :: [pinchAt 16 (2/5)]).map
      Action.frame)).1.isScrollingRef = true ∧
    (depositsOf (run initialState ((pinchAt 0 (1/2) :: [pinchAt 16 (2/5)]).map
      Action.frame)).2).sum = 250 := by
  have hs : (run initialState ((pinchAt 0 (1/2) :: [pinchAt 16 (2/5)]).map
      Action.frame)).1.isScrollingRef = true := by
    show scrollingPinch.isScrollingRef = true
    rw [scrollingPinch_eq]
  have h := (upward_scroll_sum initialState (pinchAt 0 (1/2)) [pinchAt 16 (2/5)] rfl
    (isPinchFrame_pinchAt _ _)
    (by
      intro f hf
      rw [List.mem_singleton] at hf
      subst hf
      exact isPinchFrame_pinchAt _ _)
    (by
      simp only [List.map_cons, List.map_nil, wristY_pinchAt]
      exact List.Chain.cons (by norm_num) List.Chain.nil)
    hs).2.2.2.1
    (by
      simp only [finalWristY, wristY_pinchAt, SCROLL_MULTIPLIER, MAX_SCROLL]
      norm_num)
  refine ⟨hs, ?_⟩
  rw [h.2]
  simp only [finalWristY, wristY_pinchAt, SCROLL_MULTIPLIER]
  norm_num

/-- C5 on an example: losing the hand at time 80 while the pinch of the onset frame is
pending clicks once, at the stored cursor position `(640, 360)`. -/
theorem tracking_loss_witness :
    isNoHandFrame (noHandAt 80) = true ∧
    (onResults pendingPinch (noHandAt 80)).2 = [Event.simulateClick (some 640) (some 360)] ∧
    (onResults pendingPinch (noHandAt 80)).1.pinchActiveRef = false := by
  have h := tracking_loss_frame pendingPinch (noHandAt 80) rfl
  have h2 := h.2.1 ⟨by rw [pendingPinch_eq], by rw [pendingPinch_eq],
    by rw [pendingPinch_eq]; norm_num [noHandAt]⟩
  rw [pendingPinch_eq] at h2
  refine ⟨rfl, ?_, h.2.2.2.2.2.1⟩
  rw [pendingPinch_eq]
  exact h2

end HandNavigation
